import Mathlib

/-!
Shallow embedding of the auth_api backend (FastAPI + SQLAlchemy) and proofs
about its authentication / authorization core.

Source layout embedded here:
- app/tools/hash.py           : bcrypt password hashing (module-level salt)
- app/config.py               : Settings (JWT secret, algorithm, lifetimes)
- app/tools/auth_func.py      : token codec, get_current_user, check_permission
- app/routers/auth.py         : register, login, refresh, logout endpoints
- app/routers/business_elements.py : view_business_element_object endpoint
- app/database/models_db.py   : User, Permissions, BusinessElements, RefreshToken

Conventions: wall-clock time is a natural number of unix seconds, passed
explicitly wherever the source calls datetime.now(); machine randomness
(bcrypt key derivation) is a function parameter `kdf`; the database session
is explicit state (a `Db` record) threaded through each endpoint.
-/

namespace AuthApi

/-! ### app/tools/hash.py

bcrypt digests are modeled as a salt together with the derived key
`kdf password salt`, where `kdf` stands for the bcrypt key-derivation
function (EksBlowfish); the salt is embedded in the digest, exactly as a
real bcrypt digest string embeds its salt. `bcrypt.hashpw` derives the key
from the given salt; `bcrypt.checkpw` re-derives from the embedded salt and
compares. -/

structure Digest where
  salt : Nat
  key : Nat
deriving DecidableEq, Repr

/-- bcrypt.hashpw: derive a key from the password and the given salt, and
embed the salt in the resulting digest. -/
def hashpw (kdf : String → Nat → Nat) (password : String) (salt : Nat) : Digest :=
  { salt := salt, key := kdf password salt }

/-- bcrypt.checkpw: extract the salt embedded in the digest, re-derive, and
compare with the stored key. -/
def checkpw (kdf : String → Nat → Nat) (password : String) (d : Digest) : Bool :=
  kdf password d.salt == d.key

/-- SALT_ROUNDS = 12 (hash.py line 11). -/
def SALT_ROUNDS : Nat := 12

/-- State of the hash.py module after import. The line
`salt = bcrypt.gensalt(rounds=SALT_ROUNDS)` runs ONCE at import time, so the
whole process holds a single fixed salt value; no function in the module
ever calls gensalt again. -/
structure HashModule where
  salt : Nat
deriving DecidableEq, Repr

/-- get_password_hash (hash.py lines 15-29): hashes with the module-level
`salt`. The module state is not changed by a call, so it is passed (and
conceptually returned unchanged) here. -/
def get_password_hash (kdf : String → Nat → Nat) (m : HashModule)
    (password : String) : Digest :=
  hashpw kdf password m.salt

/-- verify_password (hash.py lines 32-47): bcrypt.checkpw against the salt
embedded in the stored digest. -/
def verify_password (kdf : String → Nat → Nat) (plain_password : String)
    (hashed_password : Digest) : Bool :=
  checkpw kdf plain_password hashed_password

/-! ### app/config.py -/

/-- Settings (config.py lines 12-53), restricted to the JWT fields the
auth core reads. -/
structure Settings where
  SECRET_KEY : String
  ALGORITHM : String
  ACCESS_TOKEN_EXPIRE_MINUTES : Nat
  REFRESH_TOKEN_EXPIRE_DAYS : Nat
deriving DecidableEq, Repr

/-- The defaults from config.py (no environment overrides). -/
def defaultSettings : Settings :=
  { SECRET_KEY := "your_secret_key"
    ALGORITHM := "HS256"
    ACCESS_TOKEN_EXPIRE_MINUTES := 30
    REFRESH_TOKEN_EXPIRE_DAYS := 7 }

/-! ### JWT codec (PyJWT as used in app/tools/auth_func.py)

A token is modeled structurally as its payload together with its signature
bytes; the base64url JWT serialization is injective, so string equality of
real tokens coincides with equality of these records. The HMAC signature is
modeled as a concrete byte serialization of (secret, payload); no theorem
below relies on any property of this function beyond it being a function of
exactly (secret, payload). -/

structure Payload where
  sub : Option String
  exp : Nat
  type : String
deriving DecidableEq, Repr

def stringBytes (s : String) : List Nat :=
  s.data.map Char.toNat

/-- Modeled HMAC-SHA256 tag over the serialized (secret, payload). The
separator 1114112 exceeds every Char.toNat value, making the serialization
unambiguous. -/
def sign (secret : String) (p : Payload) : List Nat :=
  stringBytes secret ++ [1114112] ++
    (match p.sub with
     | none => [0]
     | some s => 1 :: stringBytes s) ++ [1114112, p.exp, 1114112] ++
    stringBytes p.type

structure Token where
  payload : Payload
  sig : List Nat
deriving DecidableEq, Repr

/-- jwt.encode: sign the payload with the process secret. -/
def jwt_encode (secret : String) (p : Payload) : Token :=
  { payload := p, sig := sign secret p }

/-- jwt.decode as called in decode_token: verifies the signature and the
exp claim (PyJWT raises ExpiredSignatureError when exp is not strictly in
the future). Any failure is collapsed to `none`. -/
def jwt_decode (secret : String) (t : Token) (now : Nat) : Option Payload :=
  if t.sig ≠ sign secret t.payload then none
  else if t.payload.exp ≤ now then none
  else some t.payload

/-! ### app/tools/auth_func.py -/

/-- create_access_token (auth_func.py lines 28-50). -/
def create_access_token (cfg : Settings) (now : Nat) (user_id : Nat) : Token :=
  jwt_encode cfg.SECRET_KEY
    { sub := some (toString user_id)
      exp := now + 60 * cfg.ACCESS_TOKEN_EXPIRE_MINUTES
      type := "access" }

/-- decode_token (auth_func.py lines 112-134): returns the payload, or
`none` on expiry or any other decoding failure. -/
def decode_token (cfg : Settings) (t : Token) (now : Nat) : Option Payload :=
  jwt_decode cfg.SECRET_KEY t now

/-- The Python int() builtin applied to a subject-claim string, modeled on
the non-negative decimal forms this system ever produces (every issued
token carries sub = str(user_id)); any other string raises ValueError,
i.e. returns none here. -/
def pyIntOfString? (s : String) : Option Nat :=
  if s.data ≠ [] ∧ s.data.all Char.isDigit then
    some (s.data.foldl (fun n c => n * 10 + (c.toNat - 48)) 0)
  else none

/-- Result of get_current_user: the extracted user id, a 401 rejection, or
an unhandled exception (HTTP 500) when int() is applied to a non-numeric
subject claim. -/
inductive AuthResult where
  | ok (user_id : Nat)
  | unauthorized (detail : String)
  | serverError
deriving DecidableEq, Repr

/-- get_current_user (auth_func.py lines 137-185). The Python falsiness
test `if not user_id` catches both a missing claim and the empty string. -/
def get_current_user (cfg : Settings) (now : Nat) (t : Token) : AuthResult :=
  match decode_token cfg t now with
  | none => .unauthorized "Could not validate credentials"
  | some payload =>
    if payload.type ≠ "access" then
      .unauthorized "Invalid token type. Access token required."
    else
      match payload.sub with
      | none => .unauthorized "Could not validate credentials"
      | some s =>
        if s = "" then .unauthorized "Could not validate credentials"
        else
          match pyIntOfString? s with
          | none => .serverError
          | some uid => .ok uid

/-! ### app/database/models_db.py

Row types for the four tables, with the same field names and defaults. The
database session is a `Db` record of the four tables;
`select(...).filter(col == v)` followed by `scalar_one_or_none()` is
`List.find?` (the filtered columns carry unique constraints). -/

structure User where
  id : Nat
  first_name : String
  last_name : String
  patronymic : Option String
  email : String
  hashed_password : Digest
  is_active : Bool := true
  is_role : String := "user"
deriving DecidableEq, Repr

structure Permissions where
  id : Nat
  role_name : String
  create_users : Bool := false
  read_users : Bool := false
  read_all_users : Bool := false
  update_users : Bool := false
  delete_users : Bool := false
  create_permissions : Bool := false
  read_permissions : Bool := false
  read_all_permissions : Bool := false
  update_permissions : Bool := false
  delete_permissions : Bool := false
  create_business_elements : Bool := false
  read_business_elements : Bool := false
  read_all_business_elements : Bool := false
  update_business_elements : Bool := false
  delete_business_elements : Bool := false
deriving DecidableEq, Repr

structure BusinessElements where
  id : Nat
  name : String
  roles : List String
  description : Option String
deriving DecidableEq, Repr

structure RefreshTokenRec where
  id : Nat
  user_id : Nat
  token : Token
  expires_at : Nat
deriving DecidableEq, Repr

structure Db where
  users : List User
  permissions : List Permissions
  business_elements : List BusinessElements
  refresh_tokens : List RefreshTokenRec
deriving DecidableEq, Repr

def findUserById (db : Db) (uid : Nat) : Option User :=
  db.users.find? (fun u => u.id == uid)

def findUserByEmail (db : Db) (email : String) : Option User :=
  db.users.find? (fun u => u.email == email)

def findPermission (db : Db) (role : String) : Option Permissions :=
  db.permissions.find? (fun p => p.role_name == role)

def findElement (db : Db) (name : String) : Option BusinessElements :=
  db.business_elements.find? (fun e => e.name == name)

def findRefreshToken (db : Db) (t : Token) : Option RefreshTokenRec :=
  db.refresh_tokens.find? (fun r => r.token == t)

/-! ### check_permission (auth_func.py lines 188-258)

The capability lookup is dynamic: `hasattr(Permissions, attr)` then
`getattr(permission, attr, False)` followed by a Python truthiness test.
The names that resolve are, first, the seventeen attributes declared in the
class body (fifteen boolean capability columns plus `id` and `role_name`),
which shadow everything else; and beyond them the open set of names Python
attribute resolution finds on the class and its bases — dunder attributes
such as `__doc__` (the class docstring) and `__tablename__` (assigned at
models_db.py line 66), inherited methods such as `__eq__`, and SQLAlchemy
machinery such as `_sa_class_manager`. That open remainder is modeled as an
explicit environment `inh : String → Option PyVal`; a name it maps to
`none` does not resolve (hasattr false). check_permission only ever tests
the truthiness of a resolved value, so representing an arbitrary resolved
Python object by any `PyVal` with the same truthiness is without loss. -/

inductive PyVal where
  | pyBool (b : Bool)
  | pyStr (s : String)
  | pyInt (n : Nat)
deriving DecidableEq, Repr

/-- Python truthiness: False, the empty string and 0 are falsy. -/
def PyVal.truthy : PyVal → Bool
  | .pyBool b => b
  | .pyStr s => !(s == "")
  | .pyInt n => !(n == 0)

/-- getattr on a Permissions row: the columns declared on the class
(models_db.py lines 47-90) shadow every other name; any other name
resolves through the inherited-attribute environment. `none` means hasattr
is false. -/
def Permissions.getattr? (p : Permissions) (inh : String → Option PyVal)
    (attr : String) : Option PyVal :=
  match attr with
  | "id" => some (.pyInt p.id)
  | "role_name" => some (.pyStr p.role_name)
  | "create_users" => some (.pyBool p.create_users)
  | "read_users" => some (.pyBool p.read_users)
  | "read_all_users" => some (.pyBool p.read_all_users)
  | "update_users" => some (.pyBool p.update_users)
  | "delete_users" => some (.pyBool p.delete_users)
  | "create_permissions" => some (.pyBool p.create_permissions)
  | "read_permissions" => some (.pyBool p.read_permissions)
  | "read_all_permissions" => some (.pyBool p.read_all_permissions)
  | "update_permissions" => some (.pyBool p.update_permissions)
  | "delete_permissions" => some (.pyBool p.delete_permissions)
  | "create_business_elements" => some (.pyBool p.create_business_elements)
  | "read_business_elements" => some (.pyBool p.read_business_elements)
  | "read_all_business_elements" => some (.pyBool p.read_all_business_elements)
  | "update_business_elements" => some (.pyBool p.update_business_elements)
  | "delete_business_elements" => some (.pyBool p.delete_business_elements)
  | a => inh a

/-- The boolean flag the dynamic lookup resolves at a key, when the
resolved value is a boolean at all; exactly the fifteen capability columns
resolve to booleans unless the environment happens to carry one. -/
def Permissions.capability? (p : Permissions) (inh : String → Option PyVal)
    (attr : String) : Option Bool :=
  match p.getattr? inh attr with
  | some (.pyBool b) => some b
  | _ => none

/-- Outcome of check_permission: permission granted, 404 (user vanished),
or 403 with the reason string. The Python f-string quotes around
interpolated names are dropped from the detail strings. -/
inductive PermCheck where
  | allow
  | notFound (detail : String)
  | forbidden (detail : String)
deriving DecidableEq, Repr

/-- check_permission (auth_func.py lines 188-258), parameterized by the
inherited-attribute environment of the Permissions class. -/
def check_permission (inh : String → Option PyVal) (db : Db) (user_id : Nat)
    (resource action : String) : PermCheck :=
  match findUserById db user_id with
  | none => .notFound "User not found"
  | some user =>
    if user.is_role = "admin" then .allow
    else
      match findPermission db user.is_role with
      | none => .forbidden ("No permissions defined for role " ++ user.is_role)
      | some permission =>
        let permission_attr := action ++ "_" ++ resource
        match permission.getattr? inh permission_attr with
        | none =>
          .forbidden ("Permission attribute " ++ permission_attr ++ " not found")
        | some v =>
          if v.truthy then .allow
          else
            .forbidden ("Access denied. Role " ++ user.is_role ++
              " does not have permission to " ++ action ++ " " ++ resource ++ ".")

/-- Result of the require_permission dependency pipeline
(auth_func.py lines 261-289): get_current_user, then check_permission, then
a refetch of the user row (whose result is handed to the endpoint as is,
hence the Option). -/
inductive GateResult where
  | grant (user : Option User)
  | unauthorized (detail : String)
  | notFound (detail : String)
  | forbidden (detail : String)
  | serverError
deriving DecidableEq, Repr

/-- The authorization gate: the permission_checker dependency produced by
require_permission resource action, evaluated on one request. -/
def authorization_gate (inh : String → Option PyVal) (cfg : Settings)
    (db : Db) (now : Nat) (t : Token) (resource action : String) : GateResult :=
  match get_current_user cfg now t with
  | .unauthorized d => .unauthorized d
  | .serverError => .serverError
  | .ok user_id =>
    match check_permission inh db user_id resource action with
    | .notFound d => .notFound d
    | .forbidden d => .forbidden d
    | .allow => .grant (findUserById db user_id)

/-! ### Refresh token issuance and cleanup (auth_func.py lines 53-109) -/

/-- Next autoincrement value for the refresh_tokens primary key. -/
def nextRefreshId (db : Db) : Nat :=
  (db.refresh_tokens.map (fun r => r.id)).foldr max 0 + 1

/-- Next autoincrement value for the users primary key. -/
def nextUserId (db : Db) : Nat :=
  (db.users.map (fun u => u.id)).foldr max 0 + 1

/-- create_refresh_token (auth_func.py lines 53-86): mint a refresh JWT and
persist it. -/
def create_refresh_token (cfg : Settings) (db : Db) (now : Nat)
    (user_id : Nat) : Token × Db :=
  let expire := now + 86400 * cfg.REFRESH_TOKEN_EXPIRE_DAYS
  let token := jwt_encode cfg.SECRET_KEY
    { sub := some (toString user_id), exp := expire, type := "refresh" }
  (token,
   { db with refresh_tokens := db.refresh_tokens ++
       [{ id := nextRefreshId db, user_id := user_id, token := token
          expires_at := expire }] })

/-- cleanup_expired_refresh_tokens (auth_func.py lines 89-109):
DELETE FROM refresh_tokens WHERE expires_at < now. -/
def cleanup_expired_refresh_tokens (db : Db) (now : Nat) : Db :=
  { db with refresh_tokens :=
      db.refresh_tokens.filter (fun r => !(r.expires_at < now)) }

/-! ### app/routers/auth.py -/

/-- Registration request body (tools/schemas.py, UserRegister). -/
structure UserRegister where
  first_name : String
  last_name : String
  patronymic : Option String
  email : String
  password : String
  password_confirm : String
deriving DecidableEq, Repr

inductive RegisterResult where
  | ok
  | conflict (detail : String)
  | badRequest (detail : String)
deriving DecidableEq, Repr

/-- register (auth.py lines 27-74): duplicate-email check first (409), then
password-confirmation check (400), then insert with the model defaults
is_active=true, is_role=user. -/
def register (kdf : String → Nat → Nat) (m : HashModule) (db : Db)
    (user_data : UserRegister) : RegisterResult × Db :=
  match findUserByEmail db user_data.email with
  | some _ => (.conflict "User with this email already exists", db)
  | none =>
    if user_data.password ≠ user_data.password_confirm then
      (.badRequest "Passwords do not match", db)
    else
      let hashed_password := get_password_hash kdf m user_data.password
      let db_user : User :=
        { id := nextUserId db
          first_name := user_data.first_name
          last_name := user_data.last_name
          patronymic := user_data.patronymic
          email := user_data.email
          hashed_password := hashed_password }
      (.ok, { db with users := db.users ++ [db_user] })

inductive LoginResult where
  | ok (access_token : Token) (refresh_token : Token)
  | unauthorized (detail : String)
deriving DecidableEq, Repr

/-- login (auth.py lines 77-123): credential check, then active check, then
the expiry sweep and token issuance. -/
def login (kdf : String → Nat → Nat) (cfg : Settings) (db : Db) (now : Nat)
    (email password : String) : LoginResult × Db :=
  match findUserByEmail db email with
  | none => (.unauthorized "Incorrect email or password", db)
  | some user =>
    if !(verify_password kdf password user.hashed_password) then
      (.unauthorized "Incorrect email or password", db)
    else if !user.is_active then
      (.unauthorized "Inactive user", db)
    else
      let db1 := cleanup_expired_refresh_tokens db now
      let access_token := create_access_token cfg now user.id
      let (refresh_token, db2) := create_refresh_token cfg db1 now user.id
      (.ok access_token refresh_token, db2)

/-! ### Refresh token consumption (auth.py lines 166-187)

The store interaction of the refresh endpoint — the consume operation of
the spec — is three SQL round trips on the session:
  1. SELECT the record whose token column equals the presented string;
  2. (in Python) the not-found and expiry checks on that snapshot;
  3. DELETE the snapshot row (by primary key) and COMMIT.
The SELECT and the DELETE are separate round trips with no row lock held in
between; an ORM DELETE whose row has meanwhile disappeared matches 0 rows,
which SQLAlchemy reports as a warning, not an error, so the request
proceeds. The two halves are therefore modeled as separate atomic steps on
the shared store, so that interleavings of concurrent requests can be
expressed; the sequential endpoint composes them directly. -/

inductive ConsumeResult where
  | consumed (user_id : Nat)
  | notFound
  | expired
deriving DecidableEq, Repr

/-- DELETE FROM refresh_tokens WHERE id = rid (no-op when the row is
already gone). -/
def deleteRefreshTokenById (db : Db) (rid : Nat) : Db :=
  { db with refresh_tokens := db.refresh_tokens.filter (fun r => !(r.id == rid)) }

/-- Step 1 of consume: the SELECT round trip, returning a snapshot. -/
def consumeRead (db : Db) (t : Token) : Option RefreshTokenRec :=
  findRefreshToken db t

/-- Steps 2-3 of consume: the checks on the snapshot, then the DELETE and
COMMIT applied to the store as it is at that moment. -/
def consumeFinish (db : Db) (now : Nat) (snapshot : Option RefreshTokenRec) :
    ConsumeResult × Db :=
  match snapshot with
  | none => (.notFound, db)
  | some token_record =>
    if token_record.expires_at < now then
      (.expired, deleteRefreshTokenById db token_record.id)
    else
      (.consumed token_record.user_id, deleteRefreshTokenById db token_record.id)

/-- The sequential consume operation: SELECT immediately followed by the
checks and the DELETE, with no interleaved request. -/
def consume (db : Db) (now : Nat) (t : Token) : ConsumeResult × Db :=
  consumeFinish db now (consumeRead db t)

inductive RefreshResult where
  | ok (access_token : Token) (refresh_token : Token)
  | unauthorized (detail : String)
deriving DecidableEq, Repr

/-- refresh_token_endpoint (auth.py lines 126-197). The sub claim is kept
as a string in the source and passed to both token constructors; it is the
decimal form of the owning user id for every token this system issues, and
is parsed here at the point where the source stores it back into the
integer user_id column. -/
def refresh_token_endpoint (cfg : Settings) (db : Db) (now : Nat)
    (refresh_token : Token) : RefreshResult × Db :=
  match decode_token cfg refresh_token now with
  | none => (.unauthorized "Invalid refresh token", db)
  | some payload =>
    if payload.type ≠ "refresh" then (.unauthorized "Invalid refresh token", db)
    else
      match payload.sub with
      | none => (.unauthorized "Could not validate credentials", db)
      | some s =>
        if s = "" then (.unauthorized "Could not validate credentials", db)
        else
          match consumeRead db refresh_token with
          | none => (.unauthorized "Refresh token revoked or expired", db)
          | some token_record =>
            if token_record.expires_at < now then
              (.unauthorized "Refresh token has expired",
               deleteRefreshTokenById db token_record.id)
            else
              let db1 := deleteRefreshTokenById db token_record.id
              let uid := (pyIntOfString? s).getD 0
              let access_token := create_access_token cfg now uid
              let (new_refresh_token, db2) := create_refresh_token cfg db1 now uid
              (.ok access_token new_refresh_token, db2)

/-- logout (auth.py lines 200-219): idempotent delete of the presented
refresh token. -/
def logout (db : Db) (refresh_token : Token) : Db :=
  match findRefreshToken db refresh_token with
  | none => db
  | some token_record => deleteRefreshTokenById db token_record.id

/-! ### view_business_element_object (routers/business_elements.py 225-278)

The mounted router resolves `current_user` through Depends(get_current_user),
which returns a plain int; the handler then evaluates `current_user.id`
while building the User query. The Python int type has no attribute `id`,
so that expression raises AttributeError, which FastAPI surfaces as an
HTTP 500. The attribute access is modeled explicitly so the handler body
can keep the shape of the source. -/

/-- Attribute `id` looked up on a Python int: no such attribute exists. -/
def intAttrId (_n : Nat) : Option Nat := none

inductive ViewResult where
  | ok (description : Option String)
  | unauthorized (detail : String)
  | notFound (detail : String)
  | forbidden (detail : String)
  | serverError
deriving DecidableEq, Repr

/-- view_business_element_object (business_elements.py lines 225-278). -/
def view_business_element_object (cfg : Settings) (db : Db) (now : Nat)
    (t : Token) (element_name : String) : ViewResult :=
  match get_current_user cfg now t with
  | .unauthorized d => .unauthorized d
  | .serverError => .serverError
  | .ok current_user =>
    let element := findElement db element_name
    match intAttrId current_user with
    | none => .serverError
    | some uid =>
      let user_data := findUserById db uid
      match element with
      | none => .notFound "Business element not found"
      | some e =>
        match user_data with
        | none => .notFound "User not found"
        | some u =>
          if e.roles.contains u.is_role then .ok e.description
          else
            .forbidden ("Access denied. Role " ++ u.is_role ++
              " does not have permission to view this element.")

/-! ### Concrete states used to instantiate the theorems below

A small seeded deployment: one ordinary identity with role `user` (id 1),
one admin identity (id 9), a permission record for role `user` with every
capability flag false, one business element Doc1 viewable by role
`manager`, and one stored refresh token for identity 1. The bcrypt key
derivation is instantiated with an arbitrary concrete function, as no
statement depends on its structure. -/

def kdfC : String → Nat → Nat := fun p s => p.length * 1000 + s

def userC : User :=
  { id := 1, first_name := "Ann", last_name := "Lee", patronymic := none
    email := "a@x.com", hashed_password := hashpw kdfC "secret1" 42
    is_active := true, is_role := "user" }

def managerC : User :=
  { id := 2, first_name := "Mia", last_name := "Orr", patronymic := none
    email := "m@x.com", hashed_password := hashpw kdfC "secret2" 42
    is_active := true, is_role := "manager" }

def adminC : User :=
  { id := 9, first_name := "Roy", last_name := "Admin", patronymic := none
    email := "root@x.com", hashed_password := hashpw kdfC "secret9" 42
    is_active := true, is_role := "admin" }

def inactiveC : User :=
  { id := 3, first_name := "Ida", last_name := "Off", patronymic := none
    email := "i@x.com", hashed_password := hashpw kdfC "secret3" 42
    is_active := false, is_role := "user" }

def permUserC : Permissions := { id := 1, role_name := "user" }

/-- A concrete fragment of the inherited-attribute environment of the
Permissions class, carrying the one inherited member whose value the
source pins down exactly: the class-body assignment
__tablename__ = "permissions" (models_db.py line 66). Every other
inherited name is mapped to none in this fragment; no concrete instance
below depends on a name outside the fragment and the declared columns
resolving. -/
def inhC : String → Option PyVal := fun a =>
  if a = "__tablename__" then some (.pyStr "permissions") else none

def elemC : BusinessElements :=
  { id := 1, name := "Doc1", roles := ["manager"]
    description := some "the Doc1 description" }

def refreshTokC : Token :=
  jwt_encode "your_secret_key" { sub := some "1", exp := 1000, type := "refresh" }

def refreshRecC : RefreshTokenRec :=
  { id := 5, user_id := 1, token := refreshTokC, expires_at := 1000 }

def dbC : Db :=
  { users := [userC, managerC, adminC, inactiveC]
    permissions := [permUserC]
    business_elements := [elemC]
    refresh_tokens := [refreshRecC] }

def hashModC : HashModule := { salt := 42 }

/-! ## Theorems for the claims -/

/-- C1: the claim says two separate calls of the password hasher on the
same password produce different digests because each call uses a fresh
random salt. The source computes its salt once at module import
(hash.py line 12) and get_password_hash reads that module-level constant,
so every digest produced by the process embeds the one shared salt and two
calls on the same password return identical digests — the claimed
inequality fails for every password. -/
theorem C1_process_wide_salt (kdf : String → Nat → Nat) (m : HashModule)
    (p q : String) :
    (get_password_hash kdf m p).salt = m.salt ∧
    (get_password_hash kdf m p).salt = (get_password_hash kdf m q).salt ∧
    get_password_hash kdf m p = get_password_hash kdf m p :=
  ⟨rfl, rfl, rfl⟩

/-- C8: verifying a password against its own freshly computed digest
succeeds: checkpw re-derives the key from the salt embedded in the digest,
which is the very salt hashpw used. -/
theorem C8_verify_of_hash (kdf : String → Nat → Nat) (m : HashModule)
    (p : String) :
    verify_password kdf p (get_password_hash kdf m p) = true := by
  simp [verify_password, get_password_hash, checkpw, hashpw]

/-- C4: for every stored identity whose role name is admin, the permission
evaluator allows every (resource, action) pair, whatever the
inherited-attribute environment — the admin test precedes the record
lookup and the capability lookup, so both are bypassed. -/
theorem C4_admin_allows_every_pair (inh : String → Option PyVal) (db : Db)
    (user_id : Nat) (resource action : String) (u : User)
    (hu : findUserById db user_id = some u) (hrole : u.is_role = "admin") :
    check_permission inh db user_id resource action = .allow := by
  simp [check_permission, hu, hrole]

/-- C4 witness: the seeded admin identity is allowed a pair for which no
permission record and no capability column exists. -/
theorem C4_admin_allows_every_pair_witness :
    check_permission inhC dbC 9 "gadgets" "frobnicate" = .allow :=
  C4_admin_allows_every_pair inhC dbC 9 "gadgets" "frobnicate" adminC
    (by decide) (by decide)

/-- C9: a login request carrying the correct email and password of a
stored identity whose active flag is false is rejected 401 with detail
Inactive user, and the returned session state is exactly the initial one:
the expiry sweep and the refresh-token insert sit after the active check,
so the refresh-token store is untouched. -/
theorem C9_inactive_login_rejected_before_token_work
    (kdf : String → Nat → Nat) (cfg : Settings) (db : Db) (now : Nat)
    (email password : String) (user : User)
    (hu : findUserByEmail db email = some user)
    (hpw : verify_password kdf password user.hashed_password = true)
    (hact : user.is_active = false) :
    login kdf cfg db now email password = (.unauthorized "Inactive user", db) := by
  simp [login, hu, hpw, hact]

/-- C9 witness: the seeded inactive identity logging in with its correct
credentials. -/
theorem C9_inactive_login_rejected_before_token_work_witness :
    login kdfC defaultSettings dbC 100 "i@x.com" "secret3" =
      (.unauthorized "Inactive user", dbC) :=
  C9_inactive_login_rejected_before_token_work kdfC defaultSettings dbC 100
    "i@x.com" "secret3" inactiveC (by decide) (by decide) (by decide)

/-- C10: a registration request whose email is already stored and whose
password and password_confirm differ is rejected 409 Conflict — the
duplicate-email check is evaluated first — and the user table (indeed the
whole session state) is unchanged. -/
theorem C10_duplicate_email_conflict_precedes_password_check
    (kdf : String → Nat → Nat) (m : HashModule) (db : Db)
    (user_data : UserRegister) (ex : User)
    (hex : findUserByEmail db user_data.email = some ex)
    (_hpw : user_data.password ≠ user_data.password_confirm) :
    register kdf m db user_data =
      (.conflict "User with this email already exists", db) := by
  simp [register, hex]

/-- C10 witness: re-registering the seeded email with mismatched password
fields. -/
theorem C10_duplicate_email_conflict_precedes_password_check_witness :
    register kdfC hashModC dbC
      { first_name := "Ann", last_name := "Lee", patronymic := none
        email := "a@x.com", password := "ppp111", password_confirm := "qqq222" } =
      (.conflict "User with this email already exists", dbC) :=
  C10_duplicate_email_conflict_precedes_password_check kdfC hashModC dbC
    { first_name := "Ann", last_name := "Lee", patronymic := none
      email := "a@x.com", password := "ppp111", password_confirm := "qqq222" }
    userC (by decide) (by decide)

/-- C2: at a state satisfying the claim premise — element Doc1 with role
set [manager], an authenticated identity (id 2) whose role is manager —
the mounted view endpoint does not answer 200 with the description: the
dependency get_current_user returns the user id as a plain int, the
handler evaluates current_user.id while building the identity query, the
Python int type has no attribute id, and the AttributeError surfaces as an
HTTP 500 for every request reaching that line. -/
theorem C2_view_endpoint_attribute_error :
    view_business_element_object defaultSettings dbC 0
        (create_access_token defaultSettings 0 2) "Doc1" = .serverError ∧
    get_current_user defaultSettings 0 (create_access_token defaultSettings 0 2) =
      .ok 2 ∧
    findElement dbC "Doc1" = some elemC ∧
    elemC.roles.contains managerC.is_role = true := by
  refine ⟨by decide, by decide, by decide, by decide⟩

/-- C3: at-most-once consumption of a refresh token. Sequentially the code
behaves as claimed: the first consume succeeds and deletes the record, and
an immediately following consume of the same string observes not_found
(first two conjuncts). But consume is a SELECT round trip followed by a
separate DELETE round trip, with no conditional delete or row lock joining
them; in the interleaving A.select, B.select, A.delete, B.delete of two
concurrent requests on the same stored, unexpired token, both snapshots see
the record, the second DELETE silently matches zero rows, and both requests
succeed (last two conjuncts) — an execution in which the same token string
is successfully consumed twice, contradicting the claim. -/
theorem C3_consume_not_atomic :
    (consume dbC 500 refreshTokC).1 = .consumed 1 ∧
    (consume (consume dbC 500 refreshTokC).2 500 refreshTokC) =
      (.notFound, (consume dbC 500 refreshTokC).2) ∧
    (consumeFinish dbC 500 (consumeRead dbC refreshTokC)).1 = .consumed 1 ∧
    (consumeFinish (consumeFinish dbC 500 (consumeRead dbC refreshTokC)).2 500
        (consumeRead dbC refreshTokC)).1 = .consumed 1 := by
  refine ⟨by decide, by decide, by decide, by decide⟩

/-- C5 counterexample: the claim states that (apart from the no-record and
unknown-capability denials) the evaluator returns allow iff the boolean
capability flag at the key action_resource is true. Two refuting inputs
for the non-admin identity 1 (role user, record present, every capability
flag false): the pair resource = name, action = role forms the key
role_name — a declared column carrying no boolean capability flag — and
the evaluator allows because getattr yields the stored role name, a
nonempty hence truthy string; and the pair action empty, resource
_tablename__ forms the dunder key __tablename__, which hasattr resolves
through the class (value "permissions", truthy), so the evaluator again
allows with no boolean flag at the key. -/
theorem C5_counterexample_role_name_key :
    check_permission inhC dbC 1 "name" "role" = .allow ∧
    permUserC.capability? inhC ("role" ++ "_" ++ "name") = none ∧
    check_permission inhC dbC 1 "_tablename__" "" = .allow ∧
    permUserC.capability? inhC ("" ++ "_" ++ "_tablename__") = none ∧
    findUserById dbC 1 = some userC ∧
    userC.is_role = "user" ∧
    findPermission dbC "user" = some permUserC := by
  refine ⟨by decide, by decide, by decide, by decide, by decide, by decide, by decide⟩

/-- C5 (amended): for a non-admin identity, absence of a permission record
denies with the no-permissions reason. Otherwise the key action_resource
is looked up by Python attribute resolution on the record: a key that
resolves to nothing — neither a declared column nor an inherited class
attribute — denies with the attribute-not-found reason; at every key whose
resolved value is a boolean flag (in particular the fifteen capability
columns) the evaluator allows iff the flag is true and otherwise denies
with the role-lacks-capability reason; but the lookup also reaches
non-capability attributes — the declared column role_name via the pair
(action role, resource name), and inherited class attributes such as
__tablename__ or __doc__ via keys with empty action — and at every
resolved key the evaluator allows iff the resolved value is truthy, so
such pairs are allowed whenever the resolved value (a nonempty string for
role_name and __tablename__) is truthy. -/
theorem C5_non_admin_capability_lookup (inh : String → Option PyVal)
    (db : Db) (user_id : Nat) (resource action : String) (u : User)
    (hu : findUserById db user_id = some u) (hrole : u.is_role ≠ "admin") :
    (findPermission db u.is_role = none →
      check_permission inh db user_id resource action =
        .forbidden ("No permissions defined for role " ++ u.is_role)) ∧
    (∀ perm, findPermission db u.is_role = some perm →
      (perm.getattr? inh (action ++ "_" ++ resource) = none →
        check_permission inh db user_id resource action =
          .forbidden ("Permission attribute " ++ (action ++ "_" ++ resource) ++
            " not found")) ∧
      (∀ b, perm.capability? inh (action ++ "_" ++ resource) = some b →
        (check_permission inh db user_id resource action = .allow ↔ b = true) ∧
        (b = false → check_permission inh db user_id resource action =
          .forbidden ("Access denied. Role " ++ u.is_role ++
            " does not have permission to " ++ action ++ " " ++ resource ++ "."))) ∧
      (∀ v, perm.getattr? inh (action ++ "_" ++ resource) = some v →
        (v.truthy = true →
          check_permission inh db user_id resource action = .allow) ∧
        (v.truthy = false →
          check_permission inh db user_id resource action =
            .forbidden ("Access denied. Role " ++ u.is_role ++
              " does not have permission to " ++ action ++ " " ++ resource ++ "."))) ∧
      (action = "role" → resource = "name" → perm.role_name ≠ "" →
        check_permission inh db user_id resource action = .allow)) := by
  refine ⟨?_, ?_⟩
  · intro hp
    simp [check_permission, hu, hrole, hp]
  · intro perm hp
    refine ⟨?_, ?_, ?_, ?_⟩
    · intro hattr
      simp [check_permission, hu, hrole, hp, hattr]
    · intro b hb
      have hattr : perm.getattr? inh (action ++ "_" ++ resource) = some (.pyBool b) := by
        revert hb
        unfold Permissions.capability?
        cases hg : perm.getattr? inh (action ++ "_" ++ resource) with
        | none => intro h; cases h
        | some v =>
          cases v with
          | pyBool c => intro h; injection h with h2; rw [h2]
          | pyStr s => intro h; cases h
          | pyInt n => intro h; cases h
      simp only [check_permission, hu, hrole, hp, hattr]
      cases b <;> simp [PyVal.truthy]
    · intro v hv
      constructor
      · intro ht
        simp [check_permission, hu, hrole, hp, hv, ht]
      · intro ht
        simp [check_permission, hu, hrole, hp, hv, ht]
    · intro ha hr hrn
      subst ha
      subst hr
      have hattr : perm.getattr? inh "role_name" = some (.pyStr perm.role_name) := rfl
      simp [check_permission, hu, hrole, hp, hattr, PyVal.truthy, hrn]

/-- C5 witness: identity 1 (role user, record present, read_users false)
is denied read on users with the role-lacks-capability reason. -/
theorem C5_non_admin_capability_lookup_witness :
    check_permission inhC dbC 1 "users" "read" =
      .forbidden "Access denied. Role user does not have permission to read users." :=
  ((C5_non_admin_capability_lookup inhC dbC 1 "users" "read" userC
    (by decide) (by decide)).2 permUserC (by decide)).2.1 false (by decide)
    |>.2 (by decide)

/-- Changing one entry of a list to a different value changes the list. -/
theorem set_ne_of_ne_get {l : List Nat} {i b : Nat} (hi : i < l.length)
    (hb : b ≠ l.get ⟨i, hi⟩) : l.set i b ≠ l := by
  intro hEq
  apply hb
  have h1 : (l.set i b)[i]? = l[i]? := by rw [hEq]
  rw [List.getElem?_set_eq_of_lt b hi, List.getElem?_eq_getElem hi] at h1
  exact Option.some.inj h1

/-- C6: the error taxonomy of the authorization gate. An undecodable
token, a token of a kind other than access, or a token whose subject claim
is absent (or the falsy empty string) is rejected 401 with the
corresponding detail; a decodable access token whose subject matches no
stored identity is rejected 404, not 401; a denial from the permission
evaluator is forwarded as 403 carrying the evaluator reason verbatim. -/
theorem C6_gate_error_taxonomy (inh : String → Option PyVal) (cfg : Settings)
    (db : Db) (now : Nat) (t : Token) (resource action : String) :
    (decode_token cfg t now = none →
      authorization_gate inh cfg db now t resource action =
        .unauthorized "Could not validate credentials") ∧
    (∀ p, decode_token cfg t now = some p → p.type ≠ "access" →
      authorization_gate inh cfg db now t resource action =
        .unauthorized "Invalid token type. Access token required.") ∧
    (∀ p, decode_token cfg t now = some p → p.type = "access" →
      (p.sub = none ∨ p.sub = some "") →
      authorization_gate inh cfg db now t resource action =
        .unauthorized "Could not validate credentials") ∧
    (∀ uid, get_current_user cfg now t = .ok uid →
      findUserById db uid = none →
      authorization_gate inh cfg db now t resource action =
        .notFound "User not found") ∧
    (∀ uid d, get_current_user cfg now t = .ok uid →
      check_permission inh db uid resource action = .forbidden d →
      authorization_gate inh cfg db now t resource action = .forbidden d) := by
  refine ⟨?_, ?_, ?_, ?_, ?_⟩
  · intro h
    simp [authorization_gate, get_current_user, h]
  · intro p h htype
    simp [authorization_gate, get_current_user, h, htype]
  · intro p h htype hsub
    cases hsub with
    | inl h2 => simp [authorization_gate, get_current_user, h, htype, h2]
    | inr h2 => simp [authorization_gate, get_current_user, h, htype, h2]
  · intro uid h h2
    simp [authorization_gate, h, check_permission, h2]
  · intro uid d h h2
    simp [authorization_gate, h, h2]

/-- C6 witness: the five rejections at concrete requests against the
seeded state: a token with a corrupted signature; a refresh token
presented as access token; an access token without subject; an access
token for the vanished identity 77; and identity 1 (role user, all flags
false) denied read on users. -/
theorem C6_gate_error_taxonomy_witness :
    (authorization_gate inhC defaultSettings dbC 0
      { payload := { sub := some "1", exp := 100, type := "access" }, sig := [] }
      "users" "read" = .unauthorized "Could not validate credentials") ∧
    (authorization_gate inhC defaultSettings dbC 0
      (jwt_encode "your_secret_key" { sub := some "1", exp := 100, type := "refresh" })
      "users" "read" = .unauthorized "Invalid token type. Access token required.") ∧
    (authorization_gate inhC defaultSettings dbC 0
      (jwt_encode "your_secret_key" { sub := none, exp := 100, type := "access" })
      "users" "read" = .unauthorized "Could not validate credentials") ∧
    (authorization_gate inhC defaultSettings dbC 0
      (jwt_encode "your_secret_key" { sub := some "77", exp := 100, type := "access" })
      "users" "read" = .notFound "User not found") ∧
    (authorization_gate inhC defaultSettings dbC 0
      (jwt_encode "your_secret_key" { sub := some "1", exp := 100, type := "access" })
      "users" "read" =
        .forbidden "Access denied. Role user does not have permission to read users.") :=
  ⟨(C6_gate_error_taxonomy inhC defaultSettings dbC 0 _ "users" "read").1 (by decide),
   (C6_gate_error_taxonomy inhC defaultSettings dbC 0 _ "users" "read").2.1
     { sub := some "1", exp := 100, type := "refresh" } (by decide) (by decide),
   (C6_gate_error_taxonomy inhC defaultSettings dbC 0 _ "users" "read").2.2.1
     { sub := none, exp := 100, type := "access" } (by decide) (by decide)
     (Or.inl (by decide)),
   (C6_gate_error_taxonomy inhC defaultSettings dbC 0 _ "users" "read").2.2.2.1
     77 (by decide) (by decide),
   (C6_gate_error_taxonomy inhC defaultSettings dbC 0 _ "users" "read").2.2.2.2
     1 _ (by decide) (by decide)⟩

/-- C7: decoding a freshly issued access token succeeds and recovers the
payload with subject str(id) and kind access (provided the configured
access lifetime is positive, as in every real configuration), and altering
any single byte of the signature to a different value makes decode return
the invalid result. -/
theorem C7_roundtrip_and_tamper (cfg : Settings) (user_id now : Nat)
    (httl : 0 < cfg.ACCESS_TOKEN_EXPIRE_MINUTES) :
    (decode_token cfg (create_access_token cfg now user_id) now =
      some { sub := some (toString user_id)
             exp := now + 60 * cfg.ACCESS_TOKEN_EXPIRE_MINUTES
             type := "access" }) ∧
    (∀ i b, (hi : i < (create_access_token cfg now user_id).sig.length) →
      b ≠ (create_access_token cfg now user_id).sig.get ⟨i, hi⟩ →
      decode_token cfg
        { payload := (create_access_token cfg now user_id).payload
          sig := (create_access_token cfg now user_id).sig.set i b } now = none) := by
  constructor
  · have h2 : ¬ (now + 60 * cfg.ACCESS_TOKEN_EXPIRE_MINUTES ≤ now) := by omega
    simp [decode_token, create_access_token, jwt_encode, jwt_decode, h2]
  · intro i b hi hb
    have hne : (create_access_token cfg now user_id).sig.set i b ≠
        sign cfg.SECRET_KEY (create_access_token cfg now user_id).payload :=
      set_ne_of_ne_get hi hb
    simp [decode_token, jwt_decode, hne]

/-- C7 witness: identity 5 at time 0 under the default settings; the
tampered copy flips signature byte 0 to 999. -/
theorem C7_roundtrip_and_tamper_witness :
    (decode_token defaultSettings (create_access_token defaultSettings 0 5) 0 =
      some { sub := some "5", exp := 1800, type := "access" }) ∧
    (decode_token defaultSettings
      { payload := (create_access_token defaultSettings 0 5).payload
        sig := (create_access_token defaultSettings 0 5).sig.set 0 999 } 0 = none) :=
  ⟨(C7_roundtrip_and_tamper defaultSettings 5 0 (by decide)).1,
   (C7_roundtrip_and_tamper defaultSettings 5 0 (by decide)).2 0 999
     (by decide) (by decide)⟩

end AuthApi
